import Mathlib

/-
Shallow embedding of the SEPTA station-finder service
(`app/api/utils.py` and `app/api/routers/septa.py`).

Numbers are modelled as rationals (Python floats / Decimals are rational
values; the claims speak of equality "within floating-point tolerance",
which the exact rational model subsumes).  Transcendental ingredients —
the value of numpy's pi, the haversine metric used by the ball tree, the
geodesic distance used for the service-area check, the external geocoder,
the OSRM routing call and the JSON serializer — enter the code only as
black boxes, so they are passed in as components of an `Env` record; the
theorems hold for every instantiation (or exhibit concrete ones).
-/

set_option linter.unusedVariables false

namespace Septa

/-! ### Rounding (Python `round`, banker's rounding / round-half-to-even) -/

/-- Python's `round` to an integer: round half to even. -/
def pyRoundInt (x : ℚ) : ℤ :=
  let f : ℤ := ⌊x⌋
  let frac : ℚ := x - f
  if frac < 1/2 then f
  else if 1/2 < frac then f + 1
  else if f % 2 = 0 then f else f + 1

/-- Python's `round(x, 2)`. -/
def round2 (x : ℚ) : ℚ := (pyRoundInt (x * 100) : ℚ) / 100

/-- Python's `round(x, 1)`. -/
def round1 (x : ℚ) : ℚ := (pyRoundInt (x * 10) : ℚ) / 10

/-! ### numpy angle conversions (`np.radians`, `np.degrees`)

`np.radians x = x * pi / 180` and `np.degrees x = x * 180 / pi`, where
`pi` is the float approximation of π used by numpy; it is kept abstract
as a rational parameter. -/

def npRadians (pi x : ℚ) : ℚ := x * pi / 180

def npDegrees (pi x : ℚ) : ℚ := x * 180 / pi

/-! ### Station rows (`GeoDataFrame` rows) and GeoJSON (`station_to_geojson`) -/

/-- A scalar value of a dataframe column, or the point geometry column
(`x` = longitude, `y` = latitude, as in the source KML). -/
inductive ColVal where
  | str (s : String)
  | num (q : ℚ)
  | geom (x y : ℚ)
  deriving DecidableEq, Repr

/-- One row of the loaded station `GeoDataFrame`: a list of named columns
(the pandas index), one of which is normally `"geometry"`. -/
structure StationRow where
  cols : List (String × ColVal)
  deriving DecidableEq, Repr

/-- `station_series.geometry`: the `(x, y) = (lon, lat)` point, if present. -/
def StationRow.geometry (r : StationRow) : Option (ℚ × ℚ) :=
  match r.cols.find? (fun c => c.1 = "geometry") with
  | some (_, ColVal.geom x y) => some (x, y)
  | _ => none

/-- Totalised geometry accessor (the theorems that use it carry the
`geometry = some _` side condition). -/
def StationRow.geomD (r : StationRow) : ℚ × ℚ := r.geometry.getD (0, 0)

/-- `station_series.get(key)` restricted to string columns. -/
def StationRow.getStr (r : StationRow) (key : String) : Option String :=
  match r.cols.find? (fun c => c.1 = key) with
  | some (_, ColVal.str s) => some s
  | _ => none

/-- `nearest_station.get('Name', nearest_station.get('name', f"Station {idx}"))`. -/
def stationName (r : StationRow) (idx : ℕ) : String :=
  match r.getStr "Name" with
  | some s => s
  | none =>
    match r.getStr "name" with
    | some s => s
    | none => "Station " ++ toString idx

/-- The GeoJSON feature built by `station_to_geojson`. -/
structure Feature where
  ftype : String
  gtype : String
  coordinates : List ℚ
  properties : List (String × ColVal)
  deriving DecidableEq, Repr

/-- `station_to_geojson(station_series)`.  Accessing `.geometry` on a row
with no geometry column raises in Python; that failure is the `none` case. -/
def stationToGeojson (r : StationRow) : Option Feature :=
  match r.geometry with
  | none => none
  | some (x, y) =>
    some { ftype := "Feature"
           gtype := "Point"
           coordinates := [x, y]
           properties := r.cols.filter (fun c => ¬ c.1 = "geometry") }

/-! ### OSRM responses and `get_walking_directions` -/

structure OSRMStep where
  name : String
  distance : ℚ
  deriving DecidableEq, Repr

structure OSRMLeg where
  steps : List OSRMStep
  deriving DecidableEq, Repr

structure OSRMRoute where
  distance : ℚ
  duration : ℚ
  legs : List OSRMLeg
  deriving DecidableEq, Repr

/-- Outcome of the HTTP call to the routing service: a network failure or
malformed payload (any exception inside the `try` block), or a parsed JSON
body with a `code` and a list of routes. -/
inductive OSRMResponse where
  | failure
  | ok (code : String) (routes : List OSRMRoute)
  deriving DecidableEq, Repr

structure DirStep where
  instruction : String
  distance_meters : ℚ
  deriving DecidableEq, Repr

/-- `WalkingDirections` model from `utils.py`. -/
structure WalkingDirections where
  distance : ℚ
  duration : ℚ
  steps : List DirStep
  deriving DecidableEq, Repr

/-- Step normalisation inside `get_walking_directions`:
empty road name becomes the literal `"continue"`. -/
def normStep (s : OSRMStep) : DirStep :=
  { instruction := if s.name = "" then "continue" else s.name
    distance_meters := s.distance }

/-- `get_walking_directions`, given the routing-service response.
`data["routes"][0]` on an empty list raises, which the broad `except`
turns into `None`, hence the `[]` case. -/
def getWalkingDirections (resp : OSRMResponse) : Option WalkingDirections :=
  match resp with
  | .failure => none
  | .ok code routes =>
    if code = "Ok" then
      match routes with
      | [] => none
      | route :: _ =>
        some { distance := round2 (route.distance / 1000)
               duration := round1 (route.duration / 60)
               steps := (route.legs.flatMap (fun l => l.steps)).map normStep }
    else none

/-! ### Module state (`_data`, `_tree`) and its lifecycle -/

/-- The module-level state of `utils.py`: `_data['septa_data']` and `_tree`.
The tree is modelled by the list of coordinate rows it stores (each row is
`(lat-position, lon-position)` in whatever unit the load put there). -/
structure SeptaState where
  data : Option (List StationRow)
  tree : Option (List (ℚ × ℚ))
  deriving DecidableEq, Repr

/-- The state before `load_septa_data` has run. -/
def initialState : SeptaState := { data := none, tree := none }

/-- `load_septa_data`, with the file contents given as `rows`.
Mirrors the source exactly: `coords = np.degrees(vstack([y, x]).T)` and
`_tree = BallTree(np.radians(coords), metric='haversine')`. -/
def loadSeptaData (pi : ℚ) (rows : List StationRow) (s : SeptaState) : SeptaState :=
  let coords := rows.map (fun r => (npDegrees pi r.geomD.2, npDegrees pi r.geomD.1))
  { data := some rows
    tree := some (coords.map (fun p => (npRadians pi p.1, npRadians pi p.2))) }

/-- `delete_septa_data`: `_data.clear()` and `_tree = None`. -/
def deleteSeptaData (s : SeptaState) : SeptaState := { data := none, tree := none }

/-! ### Ball-tree nearest-neighbour query (`tree.query(q, k=1)`) -/

/-- Nearest stored point under the metric `hav`, as `(index, distance)`;
earlier index wins ties (tie order among exact ties is unspecified by the
library, and no claim depends on it). -/
def treeQuery (hav : ℚ × ℚ → ℚ × ℚ → ℚ) (q : ℚ × ℚ) :
    List (ℚ × ℚ) → Option (ℕ × ℚ)
  | [] => none
  | p :: rest =>
    match treeQuery hav q rest with
    | none => some (0, hav q p)
    | some (j, dj) =>
      if hav q p ≤ dj then some (0, hav q p) else some (j + 1, dj)

/-! ### Redis cache -/

/-- The Redis store, restricted to the keys this endpoint touches. -/
def Cache := List (String × String)

def cacheGet (c : Cache) (k : String) : Option String :=
  match c with
  | [] => none
  | e :: rest => if e.1 = k then some e.2 else cacheGet rest k

def cacheSet (c : Cache) (k v : String) : Cache := (k, v) :: c

/-- `f"septa_nearest_station_{location.latitude}_{location.longitude}"`:
a deterministic string built from the raw, unrounded resolved coordinates. -/
def cacheKey (lat lon : ℚ) : String :=
  "septa_nearest_station_" ++ toString lat ++ "_" ++ toString lon

/-! ### Request model (`LocationInput`) -/

/-- The JSON request body as received: each field may be omitted. -/
structure RawLocation where
  address : Option String
  latitude : Option ℚ
  longitude : Option ℚ
  deriving DecidableEq, Repr

/-- The parsed `LocationInput`.  In the source, `latitude`/`longitude` are
plain (non-Optional) `Decimal` fields with default `Decimal('0.0')`; the
endpoint body nonetheless tests them against `None`, so they are modelled
as `Option ℚ` here and the parser records which values pydantic produces. -/
structure LocationInput where
  address : Option String
  latitude : Option ℚ
  longitude : Option ℚ
  deriving DecidableEq, Repr

/-- Pydantic validation of `LocationInput`: omitted coordinates take the
default `0.0` (they are never `None` past this point), then the two
`field_validator`s check the ranges. -/
def parseLocationInput (raw : RawLocation) : Except String LocationInput :=
  let lat := raw.latitude.getD 0
  let lon := raw.longitude.getD 0
  if lat < -90 ∨ 90 < lat then
    .error "Latitude must be between -90 and 90"
  else if lon < -180 ∨ 180 < lon then
    .error "Longitude must be between -180 and 180"
  else
    .ok { address := raw.address, latitude := some lat, longitude := some lon }

/-! ### Response model and outcomes -/

structure StationResponse where
  station_name : String
  distance_km : ℚ
  geojson : Feature
  walking_directions : Option WalkingDirections
  deriving DecidableEq, Repr

/-- Payload of the 422 out-of-service-area rejection. -/
structure OutOfAreaDetail where
  message : String
  distance_km : ℚ
  max_service_radius_km : ℚ
  center_lat : ℚ
  center_lon : ℚ
  center_name : String
  deriving DecidableEq, Repr

/-- Possible outcomes of one call to the endpoint.
`internalFailure` is an uncaught exception (HTTP 500), e.g. calling
`.query` on a `None` tree. -/
inductive Outcome where
  | validationFailure (detail : String)
  | geocodeFailure (detail : String)
  | outOfArea (detail : OutOfAreaDetail)
  | cacheHit (raw : String)
  | fresh (resp : StationResponse)
  | internalFailure
  deriving DecidableEq, Repr

/-! ### Environment: the external world as the endpoint sees it -/

/-- Black-box collaborators of the endpoint for the duration of one
request: the geocoder, geopy's geodesic distance (km) between two
`(lat, lon)` pairs, the haversine metric the ball tree evaluates on two
stored coordinate rows, numpy's value of pi, the routing-service call
(keyed by start/end coordinates), and the JSON serializer used for cache
values.  Every theorem below either holds for all instantiations or
exhibits a concrete one. -/
structure Env where
  geocode : String → Option (ℚ × ℚ)
  geodesic : ℚ × ℚ → ℚ × ℚ → ℚ
  hav : ℚ × ℚ → ℚ × ℚ → ℚ
  pi : ℚ
  osrm : ℚ → ℚ → ℚ → ℚ → OSRMResponse
  serialize : StationResponse → String

/-- `SEPTA_CENTER_LAT` -/
def SEPTA_CENTER_LAT : ℚ := 39.9526

/-- `SEPTA_CENTER_LON` -/
def SEPTA_CENTER_LON : ℚ := -75.1652

/-- `MAX_SERVICE_RADIUS_KM` -/
def MAX_SERVICE_RADIUS_KM : ℚ := 80

/-! ### The endpoint (`find_nearest_station`) -/

/-- Coordinate resolution: if a (truthy, i.e. non-empty) address is given
it is geocoded and overwrites `location.latitude`/`longitude`; an
unresolvable address is a 400.  Otherwise the supplied coordinates stand
(with the pydantic defaults standing in for omitted values). -/
def resolveCoords (env : Env) (location : LocationInput) : Option (ℚ × ℚ) :=
  match location.address with
  | some a =>
    if a = "" then some (location.latitude.getD 0, location.longitude.getD 0)
    else env.geocode a
  | none => some (location.latitude.getD 0, location.longitude.getD 0)

/-- The body of `find_nearest_station` after coordinate resolution. -/
def findNearestResolved (env : Env) (s : SeptaState) (cache : Cache)
    (lat lon : ℚ) : Outcome × Cache :=
  let d := env.geodesic (lat, lon) (SEPTA_CENTER_LAT, SEPTA_CENTER_LON)
  if MAX_SERVICE_RADIUS_KM < d then
    (.outOfArea
      { message := "Location is outside of SEPTA's service area"
        distance_km := round2 d
        max_service_radius_km := MAX_SERVICE_RADIUS_KM
        center_lat := SEPTA_CENTER_LAT
        center_lon := SEPTA_CENTER_LON
        center_name := "Philadelphia, PA" }, cache)
  else
    let key := cacheKey lat lon
    match cacheGet cache key with
    | some raw => (.cacheHit raw, cache)
    | none =>
      match s.tree with
      | none => (.internalFailure, cache)
      | some pts =>
        let qrad := (npRadians env.pi lat, npRadians env.pi lon)
        match treeQuery env.hav qrad pts with
        | none => (.internalFailure, cache)
        | some (idx, dist) =>
          let distance_km := dist * 6371
          match s.data with
          | none => (.internalFailure, cache)
          | some rows =>
            match rows[idx]? with
            | none => (.internalFailure, cache)
            | some row =>
              match row.geometry with
              | none => (.internalFailure, cache)
              | some (gx, gy) =>
                let wd := getWalkingDirections (env.osrm lat lon gy gx)
                match stationToGeojson row with
                | none => (.internalFailure, cache)
                | some feature =>
                  let resp : StationResponse :=
                    { station_name := stationName row idx
                      distance_km := round2 distance_km
                      geojson := feature
                      walking_directions := wd }
                  (.fresh resp, cacheSet cache key (env.serialize resp))

/-- `find_nearest_station(location, redis)`: the full endpoint body. -/
def findNearestStation (env : Env) (s : SeptaState) (cache : Cache)
    (location : LocationInput) : Outcome × Cache :=
  if (location.latitude = none ∨ location.longitude = none) ∧
      location.address = none then
    (.validationFailure "Either an address or latitude/longitude must be provided",
     cache)
  else
    match resolveCoords env location with
    | none => (.geocodeFailure "Could not geocode the provided address", cache)
    | some (lat, lon) => findNearestResolved env s cache lat lon

/-! ### Derived shapes of the fresh branch -/

/-- The GeoJSON feature `station_to_geojson` builds for a row whose
geometry is `(gx, gy)`. -/
def mkFeature (row : StationRow) (gx gy : ℚ) : Feature :=
  { ftype := "Feature"
    gtype := "Point"
    coordinates := [gx, gy]
    properties := row.cols.filter (fun c => ¬ c.1 = "geometry") }

/-- The `StationResponse` assembled on a cache miss for winning index
`idx` at tree distance `dist`. -/
def mkResp (env : Env) (lat lon : ℚ) (idx : ℕ) (dist : ℚ)
    (row : StationRow) (gx gy : ℚ) : StationResponse :=
  { station_name := stationName row idx
    distance_km := round2 (dist * 6371)
    geojson := mkFeature row gx gy
    walking_directions := getWalkingDirections (env.osrm lat lon gy gx) }

/-- The 422 payload raised for a measured distance `d`. -/
def outOfAreaPayload (d : ℚ) : OutOfAreaDetail :=
  { message := "Location is outside of SEPTA's service area"
    distance_km := round2 d
    max_service_radius_km := MAX_SERVICE_RADIUS_KM
    center_lat := SEPTA_CENTER_LAT
    center_lon := SEPTA_CENTER_LON
    center_name := "Philadelphia, PA" }

/-! ### Concrete instantiations used by evaluation theorems and witnesses -/

/-- Rational stand-in for the float value of numpy's pi. -/
def piF : ℚ := 314159/100000

/-- A concrete point-separating stand-in for the black-box metric. -/
def sqDist : ℚ × ℚ → ℚ × ℚ → ℚ := fun p q => (p.1 - q.1)^2 + (p.2 - q.2)^2

/-- One station row shaped like a row of the SEPTA KML dataset:
a `Name` column and a point geometry (`x` = lon, `y` = lat). -/
def suburbanRow : StationRow :=
  { cols := [("Name", .str "Suburban Station"),
             ("geometry", .geom (-75.1652) 39.9526)] }

/-- The module state after startup (`load_septa_data`) on that dataset. -/
def loadedState : SeptaState := loadSeptaData piF [suburbanRow] initialState

/-- Concrete environment: the query location is inside the service area
(`geodesic ≡ 0`), geocoding finds nothing, the routing call fails. -/
def envNear : Env :=
  { geocode := fun _ => none
    geodesic := fun _ _ => 0
    hav := sqDist
    pi := piF
    osrm := fun _ _ _ _ => .failure
    serialize := fun _ => "S" }

/-- The failure classes of the routing call named by the spec: network
failure / malformed payload, a non-success `code`, or a payload with no
routes. -/
def osrmFails (resp : OSRMResponse) : Prop :=
  resp = .failure
  ∨ ∃ code routes, resp = .ok code routes ∧ (¬ code = "Ok" ∨ routes = [])

/-- Concrete world whose geocoder resolves every address to the center. -/
def envGeoToCenter : Env :=
  { envNear with geocode := fun _ => some (39.9526, -75.1652) }

/-! ### Helper lemmas -/

theorem stationToGeojson_eq {row : StationRow} {gx gy : ℚ}
    (h : row.geometry = some (gx, gy)) :
    stationToGeojson row = some (mkFeature row gx gy) := by
  simp [stationToGeojson, h, mkFeature]

/-- Inversion: everything that must have happened when the endpoint body
returned a fresh response. -/
theorem findNearestResolved_fresh_inv {env : Env} {s : SeptaState}
    {cache : Cache} {lat lon : ℚ} {r : StationResponse} {c₁ : Cache}
    (h : findNearestResolved env s cache lat lon = (.fresh r, c₁)) :
    ∃ pts idx dist rows row gx gy,
      ¬ MAX_SERVICE_RADIUS_KM <
          env.geodesic (lat, lon) (SEPTA_CENTER_LAT, SEPTA_CENTER_LON)
      ∧ cacheGet cache (cacheKey lat lon) = none
      ∧ s.tree = some pts
      ∧ treeQuery env.hav (npRadians env.pi lat, npRadians env.pi lon) pts
          = some (idx, dist)
      ∧ s.data = some rows
      ∧ rows[idx]? = some row
      ∧ row.geometry = some (gx, gy)
      ∧ r = mkResp env lat lon idx dist row gx gy
      ∧ c₁ = cacheSet cache (cacheKey lat lon) (env.serialize r) := by
  unfold findNearestResolved at h
  by_cases harea : MAX_SERVICE_RADIUS_KM <
      env.geodesic (lat, lon) (SEPTA_CENTER_LAT, SEPTA_CENTER_LON)
  · rw [if_pos harea] at h
    simp at h
  · rw [if_neg harea] at h
    simp only [] at h
    cases hcg : cacheGet cache (cacheKey lat lon) with
    | some raw =>
      rw [hcg] at h
      simp at h
    | none =>
      rw [hcg] at h
      simp only [] at h
      cases ht : s.tree with
      | none =>
        rw [ht] at h
        simp at h
      | some pts =>
        rw [ht] at h
        simp only [] at h
        cases hq : treeQuery env.hav (npRadians env.pi lat, npRadians env.pi lon) pts with
        | none =>
          rw [hq] at h
          simp at h
        | some pair =>
          obtain ⟨idx, dist⟩ := pair
          rw [hq] at h
          simp only [] at h
          cases hd : s.data with
          | none =>
            rw [hd] at h
            simp at h
          | some rows =>
            rw [hd] at h
            simp only [] at h
            cases hrow : rows[idx]? with
            | none =>
              rw [hrow] at h
              simp at h
            | some row =>
              rw [hrow] at h
              simp only [] at h
              cases hgeom : row.geometry with
              | none =>
                rw [hgeom] at h
                simp at h
              | some pxy =>
                obtain ⟨gx, gy⟩ := pxy
                rw [hgeom] at h
                simp only [] at h
                rw [stationToGeojson_eq hgeom] at h
                simp only [Prod.mk.injEq, Outcome.fresh.injEq] at h
                obtain ⟨hr, hc⟩ := h
                refine ⟨pts, idx, dist, rows, row, gx, gy, harea, rfl, rfl, hq, rfl,
                  hrow, hgeom, hr.symm, ?_⟩
                rw [hc.symm, hr]

/-- Forward evaluation of the fresh branch. -/
theorem findNearestResolved_eval {env : Env} {s : SeptaState} {cache : Cache}
    {lat lon : ℚ} {pts : List (ℚ × ℚ)} {idx : ℕ} {dist : ℚ}
    {rows : List StationRow} {row : StationRow} {gx gy : ℚ}
    (harea : ¬ MAX_SERVICE_RADIUS_KM <
        env.geodesic (lat, lon) (SEPTA_CENTER_LAT, SEPTA_CENTER_LON))
    (hmiss : cacheGet cache (cacheKey lat lon) = none)
    (ht : s.tree = some pts)
    (hq : treeQuery env.hav (npRadians env.pi lat, npRadians env.pi lon) pts
        = some (idx, dist))
    (hd : s.data = some rows)
    (hrow : rows[idx]? = some row)
    (hgeom : row.geometry = some (gx, gy)) :
    findNearestResolved env s cache lat lon
      = (.fresh (mkResp env lat lon idx dist row gx gy),
         cacheSet cache (cacheKey lat lon)
           (env.serialize (mkResp env lat lon idx dist row gx gy))) := by
  unfold findNearestResolved
  rw [if_neg harea]
  simp only []
  rw [hmiss]
  simp only []
  rw [ht]
  simp only []
  rw [hq]
  simp only []
  rw [hd]
  simp only []
  rw [hrow]
  simp only []
  rw [hgeom]
  simp only []
  rw [stationToGeojson_eq hgeom]
  simp only []
  rfl

/-- Exhaustive shape analysis of the endpoint body after resolution:
either the service-area rejection fires (exactly when the geodesic
distance strictly exceeds the limit), or the cache answers, or the
request ends in an internal failure or a fresh response. -/
theorem findNearestResolved_cases (env : Env) (s : SeptaState) (cache : Cache)
    (lat lon : ℚ) :
    (MAX_SERVICE_RADIUS_KM <
        env.geodesic (lat, lon) (SEPTA_CENTER_LAT, SEPTA_CENTER_LON)
      ∧ findNearestResolved env s cache lat lon =
          (.outOfArea (outOfAreaPayload
            (env.geodesic (lat, lon) (SEPTA_CENTER_LAT, SEPTA_CENTER_LON))), cache))
  ∨ (¬ MAX_SERVICE_RADIUS_KM <
        env.geodesic (lat, lon) (SEPTA_CENTER_LAT, SEPTA_CENTER_LON)
      ∧ ∃ raw, cacheGet cache (cacheKey lat lon) = some raw
          ∧ findNearestResolved env s cache lat lon = (.cacheHit raw, cache))
  ∨ (¬ MAX_SERVICE_RADIUS_KM <
        env.geodesic (lat, lon) (SEPTA_CENTER_LAT, SEPTA_CENTER_LON)
      ∧ cacheGet cache (cacheKey lat lon) = none
      ∧ (findNearestResolved env s cache lat lon = (.internalFailure, cache)
          ∨ ∃ r, findNearestResolved env s cache lat lon =
              (.fresh r, cacheSet cache (cacheKey lat lon) (env.serialize r)))) := by
  by_cases harea : MAX_SERVICE_RADIUS_KM <
      env.geodesic (lat, lon) (SEPTA_CENTER_LAT, SEPTA_CENTER_LON)
  · refine Or.inl ⟨harea, ?_⟩
    unfold findNearestResolved
    rw [if_pos harea]
    rfl
  · cases hcg : cacheGet cache (cacheKey lat lon) with
    | some raw =>
      refine Or.inr (Or.inl ⟨harea, raw, rfl, ?_⟩)
      unfold findNearestResolved
      rw [if_neg harea]
      simp only []
      rw [hcg]
    | none =>
      refine Or.inr (Or.inr ⟨harea, rfl, ?_⟩)
      cases ht : s.tree with
      | none =>
        refine Or.inl ?_
        unfold findNearestResolved
        rw [if_neg harea]
        simp only []
        rw [hcg, ht]
      | some pts =>
        cases hq : treeQuery env.hav (npRadians env.pi lat, npRadians env.pi lon) pts with
        | none =>
          refine Or.inl ?_
          unfold findNearestResolved
          rw [if_neg harea]
          simp only []
          rw [hcg, ht]
          simp only []
          rw [hq]
        | some pair =>
          obtain ⟨idx, dist⟩ := pair
          cases hd : s.data with
          | none =>
            refine Or.inl ?_
            unfold findNearestResolved
            rw [if_neg harea]
            simp only []
            rw [hcg, ht]
            simp only []
            rw [hq]
            simp only []
            rw [hd]
          | some rows =>
            cases hrow : rows[idx]? with
            | none =>
              refine Or.inl ?_
              unfold findNearestResolved
              rw [if_neg harea]
              simp only []
              rw [hcg, ht]
              simp only []
              rw [hq]
              simp only []
              rw [hd]
              simp only []
              rw [hrow]
            | some row =>
              cases hgeom : row.geometry with
              | none =>
                refine Or.inl ?_
                unfold findNearestResolved
                rw [if_neg harea]
                simp only []
                rw [hcg, ht]
                simp only []
                rw [hq]
                simp only []
                rw [hd]
                simp only []
                rw [hrow]
                simp only []
                rw [hgeom]
              | some pxy =>
                obtain ⟨gx, gy⟩ := pxy
                exact Or.inr ⟨mkResp env lat lon idx dist row gx gy,
                  findNearestResolved_eval harea hcg ht hq hd hrow hgeom⟩

/-- Resolution and the dead `None` check: a request that carries parsed
coordinates and no address goes straight to the resolved body. -/
theorem findNearestStation_coords (env : Env) (s : SeptaState) (cache : Cache)
    (lat lon : ℚ) :
    findNearestStation env s cache
        { address := none, latitude := some lat, longitude := some lon }
      = findNearestResolved env s cache lat lon := by
  unfold findNearestStation
  simp [resolveCoords]

/-- The response the code assembles for a query placed exactly at the
single station's location, in the concrete `envNear` world. -/
def freshRespAtCenter : StationResponse :=
  { station_name := "Suburban Station"
    distance_km := 4456700077/100
    geojson := { ftype := "Feature", gtype := "Point",
                 coordinates := [-75.1652, 39.9526],
                 properties := [("Name", .str "Suburban Station")] }
    walking_directions := none }

/-- Claim C2: loading is supposed to store the stations' degree coordinates
multiplied by pi/180.  In the code `np.degrees` is applied to coordinates
that are already in degrees and `np.radians` then cancels it, so the ball
tree stores the raw degree coordinates unchanged — NOT their radian
conversion (shown here for the station at (39.9526, -75.1652) and any
rational stand-in for pi, here 3.14159). -/
theorem C2_tree_stores_degrees_not_radians :
    (loadSeptaData piF [suburbanRow] initialState).tree = some [(39.9526, -75.1652)]
    ∧ ¬ (loadSeptaData piF [suburbanRow] initialState).tree
        = some [(npRadians piF 39.9526, npRadians piF (-75.1652))] := by
  constructor
  · simp [loadSeptaData, initialState, npRadians, npDegrees, suburbanRow, piF,
      StationRow.geomD, StationRow.geometry, List.find?]
    norm_num
  · simp [loadSeptaData, initialState, npRadians, npDegrees, suburbanRow, piF,
      StationRow.geomD, StationRow.geometry, List.find?]
    norm_num

/-- Claim C1: the returned station is in the dataset (it is), but the
reported distance is the tree metric evaluated against the stored
coordinates, which are the un-converted degree coordinates (claim C2's
bug): for a query placed exactly at the station's location the distance
demanded by the claim is `round2 (6371 * hav(q, q)) = 0`, while the code
reports 44,567,000.77 km. -/
theorem C1_reported_distance_not_distance_to_station :
    (findNearestStation envNear loadedState []
        { address := none, latitude := some 39.9526, longitude := some (-75.1652) }).1
      = .fresh freshRespAtCenter
    ∧ freshRespAtCenter.station_name = "Suburban Station"
    ∧ round2 (6371 * envNear.hav
        (npRadians envNear.pi 39.9526, npRadians envNear.pi (-75.1652))
        (npRadians envNear.pi 39.9526, npRadians envNear.pi (-75.1652))) = 0
    ∧ ¬ freshRespAtCenter.distance_km = round2 (6371 * envNear.hav
        (npRadians envNear.pi 39.9526, npRadians envNear.pi (-75.1652))
        (npRadians envNear.pi 39.9526, npRadians envNear.pi (-75.1652))) := by
  refine ⟨?_, rfl, ?_, ?_⟩
  · simp [findNearestStation, resolveCoords, findNearestResolved, envNear, loadedState,
      loadSeptaData, initialState, npRadians, npDegrees, suburbanRow, piF,
      StationRow.geomD, StationRow.geometry, List.find?, cacheGet, treeQuery, sqDist,
      stationToGeojson, stationName, StationRow.getStr, getWalkingDirections,
      MAX_SERVICE_RADIUS_KM, SEPTA_CENTER_LAT, SEPTA_CENTER_LON,
      freshRespAtCenter, round2, pyRoundInt]
    norm_num [Int.fract]
  · simp [envNear, sqDist, round2, pyRoundInt]
  · simp [envNear, sqDist, freshRespAtCenter, round2, pyRoundInt]

/-- Claim C3: with resolved coordinates, the request is rejected as
out-of-service-area exactly when the measured distance from the fixed
center strictly exceeds 80 km (a distance of exactly 80 km passes), and
the rejection payload carries the rounded measured distance, the limit
and the center.  Holds for every environment, state and cache. -/
theorem C3_service_area_boundary (env : Env) (s : SeptaState) (cache : Cache)
    (lat lon : ℚ) :
    (MAX_SERVICE_RADIUS_KM <
        env.geodesic (lat, lon) (SEPTA_CENTER_LAT, SEPTA_CENTER_LON) →
      (findNearestStation env s cache
          { address := none, latitude := some lat, longitude := some lon }).1
        = .outOfArea
            { message := "Location is outside of SEPTA's service area"
              distance_km := round2
                (env.geodesic (lat, lon) (SEPTA_CENTER_LAT, SEPTA_CENTER_LON))
              max_service_radius_km := 80
              center_lat := 39.9526
              center_lon := -75.1652
              center_name := "Philadelphia, PA" })
    ∧ (env.geodesic (lat, lon) (SEPTA_CENTER_LAT, SEPTA_CENTER_LON)
          ≤ MAX_SERVICE_RADIUS_KM →
      ∀ p, ¬ (findNearestStation env s cache
          { address := none, latitude := some lat, longitude := some lon }).1
        = .outOfArea p) := by
  rcases findNearestResolved_cases env s cache lat lon with
    ⟨h, heq⟩ | ⟨h, raw, hcg, heq⟩ | ⟨h, hcg, heq⟩
  · refine ⟨fun _ => ?_, fun hle => absurd h (not_lt.mpr hle)⟩
    rw [findNearestStation_coords, heq]
    rfl
  · refine ⟨fun hd => absurd hd h, fun _ p hp => ?_⟩
    rw [findNearestStation_coords, heq] at hp
    simp at hp
  · refine ⟨fun hd => absurd hd h, fun _ p hp => ?_⟩
    rw [findNearestStation_coords] at hp
    rcases heq with hint | ⟨r, hfr⟩
    · rw [hint] at hp
      simp at hp
    · rw [hfr] at hp
      simp at hp

/-- Concrete far-away world: the measured distance to the center is a
constant 8601 km (the order of the true distance from (0, 0) to
Philadelphia). -/
def envFar : Env := { envNear with geodesic := fun _ _ => 8601 }

/-- Claim C4: a request with neither address nor coordinates is supposed
to fail with a 400 validation failure before any filtering.  In the code
the coordinate fields are non-optional with default `Decimal('0.0')`, so
pydantic parses the empty body to `(0, 0)` with no address, the `None`
check in the endpoint can never fire, and the request instead proceeds to
the service-area filter, which rejects it as out of the service area. -/
theorem C4_empty_request_not_validation_failure :
    parseLocationInput { address := none, latitude := none, longitude := none }
      = .ok { address := none, latitude := some 0, longitude := some 0 }
    ∧ (findNearestStation envFar loadedState []
        { address := none, latitude := some 0, longitude := some 0 }).1
      = .outOfArea
          { message := "Location is outside of SEPTA's service area"
            distance_km := 8601
            max_service_radius_km := 80
            center_lat := 39.9526
            center_lon := -75.1652
            center_name := "Philadelphia, PA" }
    ∧ ∀ detail, ¬ (findNearestStation envFar loadedState []
        { address := none, latitude := some 0, longitude := some 0 }).1
      = .validationFailure detail := by
  have h2 : (findNearestStation envFar loadedState []
      { address := none, latitude := some 0, longitude := some 0 }).1
      = .outOfArea
          { message := "Location is outside of SEPTA's service area"
            distance_km := 8601
            max_service_radius_km := 80
            center_lat := 39.9526
            center_lon := -75.1652
            center_name := "Philadelphia, PA" } := by
    rw [findNearestStation_coords]
    unfold findNearestResolved
    rw [if_pos (by norm_num [envFar, envNear, MAX_SERVICE_RADIUS_KM])]
    simp [envFar, envNear, round2, pyRoundInt]
    norm_num [MAX_SERVICE_RADIUS_KM, SEPTA_CENTER_LAT, SEPTA_CENTER_LON]
  refine ⟨by norm_num [parseLocationInput], h2, fun detail hd => ?_⟩
  rw [h2] at hd
  simp at hd

/-- Claim C5: when a coordinate-only request produces a fresh result, the
result is stored in the cache under the key derived from the raw resolved
coordinates, and repeating the identical request is served from the cache
with the serialized form of exactly that first result (same station, same
distance). -/
theorem C5_cache_idempotence (env : Env) (s : SeptaState) (cache : Cache)
    (lat lon : ℚ) (r : StationResponse) (c₁ : Cache)
    (h1 : findNearestStation env s cache
        { address := none, latitude := some lat, longitude := some lon }
      = (.fresh r, c₁)) :
    cacheGet c₁ (cacheKey lat lon) = some (env.serialize r)
    ∧ findNearestStation env s c₁
        { address := none, latitude := some lat, longitude := some lon }
      = (.cacheHit (env.serialize r), c₁) := by
  rw [findNearestStation_coords] at h1
  obtain ⟨pts, idx, dist, rows, row, gx, gy, harea, hmiss, ht, hq, hd, hrow, hgeom,
    hr, hc⟩ := findNearestResolved_fresh_inv h1
  subst hc
  have hkey : cacheGet (cacheSet cache (cacheKey lat lon) (env.serialize r))
      (cacheKey lat lon) = some (env.serialize r) := by
    simp [cacheGet, cacheSet]
  refine ⟨hkey, ?_⟩
  rw [findNearestStation_coords]
  unfold findNearestResolved
  rw [if_neg harea]
  simp only []
  rw [hkey]

/-- Claim C5 witness: a concrete first call stores the serialized result
and the concrete second call is a cache hit returning it. -/
theorem C5_cache_idempotence_witness :
    cacheGet [(cacheKey 39.9526 (-75.1652), "S")] (cacheKey 39.9526 (-75.1652))
      = some (envNear.serialize freshRespAtCenter)
    ∧ findNearestStation envNear loadedState [(cacheKey 39.9526 (-75.1652), "S")]
        { address := none, latitude := some 39.9526, longitude := some (-75.1652) }
      = (.cacheHit (envNear.serialize freshRespAtCenter),
         [(cacheKey 39.9526 (-75.1652), "S")]) :=
  C5_cache_idempotence envNear loadedState [] 39.9526 (-75.1652) freshRespAtCenter
    [(cacheKey 39.9526 (-75.1652), "S")]
    (by
      simp [findNearestStation, resolveCoords, findNearestResolved, envNear, loadedState,
        loadSeptaData, initialState, npRadians, npDegrees, suburbanRow, piF,
        StationRow.geomD, StationRow.geometry, List.find?, cacheGet, cacheSet, treeQuery,
        sqDist, stationToGeojson, stationName, StationRow.getStr, getWalkingDirections,
        MAX_SERVICE_RADIUS_KM, SEPTA_CENTER_LAT, SEPTA_CENTER_LON,
        freshRespAtCenter, round2, pyRoundInt]
      norm_num [Int.fract])

/-- Claim C6 counterexample: "every query before load / after unload
fails" is false, because the cache is consulted before the index: after
`delete_septa_data` a query whose key is still cached returns the cached
value, not an error. -/
theorem C6_counterexample :
    (findNearestStation envNear (deleteSeptaData loadedState)
        [(cacheKey 39.9526 (-75.1652), "cached-blob")]
        { address := none, latitude := some 39.9526, longitude := some (-75.1652) }).1
      = .cacheHit "cached-blob"
    ∧ ¬ (findNearestStation envNear (deleteSeptaData loadedState)
        [(cacheKey 39.9526 (-75.1652), "cached-blob")]
        { address := none, latitude := some 39.9526, longitude := some (-75.1652) }).1
      = .internalFailure := by
  have h : (findNearestStation envNear (deleteSeptaData loadedState)
      [(cacheKey 39.9526 (-75.1652), "cached-blob")]
      { address := none, latitude := some 39.9526, longitude := some (-75.1652) }).1
      = .cacheHit "cached-blob" := by
    rw [findNearestStation_coords]
    unfold findNearestResolved
    rw [if_neg (by norm_num [envNear, MAX_SERVICE_RADIUS_KM])]
    simp [cacheGet]
  exact ⟨h, by rw [h]; simp⟩

/-- Claim C6 amended: a nearest-station query issued before the station
data has been loaded, or after it has been unloaded, fails as an internal
(index-not-ready) failure — provided it is not answered by the cache
first and is inside the service area (the cache lookup and area check
precede the index query). -/
theorem C6_amended_not_loaded_fails (env : Env) (s : SeptaState) (cache : Cache)
    (lat lon : ℚ)
    (hmiss : cacheGet cache (cacheKey lat lon) = none)
    (harea : env.geodesic (lat, lon) (SEPTA_CENTER_LAT, SEPTA_CENTER_LON)
      ≤ MAX_SERVICE_RADIUS_KM) :
    findNearestStation env initialState cache
        { address := none, latitude := some lat, longitude := some lon }
      = (.internalFailure, cache)
    ∧ findNearestStation env (deleteSeptaData s) cache
        { address := none, latitude := some lat, longitude := some lon }
      = (.internalFailure, cache) := by
  have key : ∀ s' : SeptaState, s'.tree = none →
      findNearestStation env s' cache
          { address := none, latitude := some lat, longitude := some lon }
        = (.internalFailure, cache) := by
    intro s' hs
    rw [findNearestStation_coords]
    unfold findNearestResolved
    rw [if_neg (not_lt.mpr harea)]
    simp only []
    rw [hmiss]
    simp only []
    rw [hs]
  exact ⟨key initialState rfl, key (deleteSeptaData s) rfl⟩

/-- Claim C6 amended witness: concrete cold-cache queries against the
pre-load and post-unload states both fail internally. -/
theorem C6_amended_witness :
    findNearestStation envNear initialState []
        { address := none, latitude := some 39.9526, longitude := some (-75.1652) }
      = (.internalFailure, [])
    ∧ findNearestStation envNear (deleteSeptaData loadedState) []
        { address := none, latitude := some 39.9526, longitude := some (-75.1652) }
      = (.internalFailure, []) :=
  C6_amended_not_loaded_fails envNear loadedState [] 39.9526 (-75.1652) rfl
    (by norm_num [envNear, MAX_SERVICE_RADIUS_KM])

/-- Every failing routing response yields an absent directions value. -/
theorem getWalkingDirections_of_fails {resp : OSRMResponse}
    (h : osrmFails resp) : getWalkingDirections resp = none := by
  rcases h with h | ⟨code, routes, h, hbad⟩
  · rw [h]; rfl
  · rw [h]
    unfold getWalkingDirections
    simp only []
    rcases hbad with hc | hr
    · rw [if_neg hc]
    · by_cases hok : code = "Ok"
      · rw [if_pos hok, hr]
      · rw [if_neg hok]

/-- Claim C3 witness: the London-like far query is rejected with the
measured distance in the payload, and a query at distance 0 (≤ 80 km,
covering the exact-80 pass direction at a concrete input) is never
rejected as out of area. -/
theorem C3_service_area_boundary_witness :
    (MAX_SERVICE_RADIUS_KM <
        envFar.geodesic (51.5074, -0.1278) (SEPTA_CENTER_LAT, SEPTA_CENTER_LON))
    ∧ (findNearestStation envFar loadedState []
        { address := none, latitude := some 51.5074, longitude := some (-0.1278) }).1
      = .outOfArea
          { message := "Location is outside of SEPTA's service area"
            distance_km := round2
              (envFar.geodesic (51.5074, -0.1278) (SEPTA_CENTER_LAT, SEPTA_CENTER_LON))
            max_service_radius_km := 80
            center_lat := 39.9526
            center_lon := -75.1652
            center_name := "Philadelphia, PA" }
    ∧ ∀ p, ¬ (findNearestStation envNear loadedState []
        { address := none, latitude := some 39.9526, longitude := some (-75.1652) }).1
      = .outOfArea p :=
  ⟨by norm_num [envFar, envNear, MAX_SERVICE_RADIUS_KM],
   (C3_service_area_boundary envFar loadedState [] 51.5074 (-0.1278)).1
     (by norm_num [envFar, envNear, MAX_SERVICE_RADIUS_KM]),
   (C3_service_area_boundary envNear loadedState [] 39.9526 (-75.1652)).2
     (by norm_num [envNear, MAX_SERVICE_RADIUS_KM])⟩

/-- Claim C7: if the routing service fails in any of the named ways
(network failure / malformed payload, non-success code, empty routes),
directions come back absent, and a request that would have produced a
fresh result still produces the same station, distance and feature, with
`walking_directions` absent — the failure is not propagated. -/
theorem C7_directions_failure_nonfatal
    (geocode : String → Option (ℚ × ℚ)) (geodesic hav : ℚ × ℚ → ℚ × ℚ → ℚ)
    (pi : ℚ) (osrmA osrmB : ℚ → ℚ → ℚ → ℚ → OSRMResponse)
    (serialize : StationResponse → String)
    (s : SeptaState) (cache : Cache) (loc : LocationInput)
    (r : StationResponse) (c : Cache)
    (hfail : ∀ a b e f, osrmFails (osrmB a b e f))
    (h1 : findNearestStation ⟨geocode, geodesic, hav, pi, osrmA, serialize⟩
        s cache loc = (.fresh r, c)) :
    (∀ a b e f, getWalkingDirections (osrmB a b e f) = none)
    ∧ ∃ rB cB, findNearestStation ⟨geocode, geodesic, hav, pi, osrmB, serialize⟩
          s cache loc = (.fresh rB, cB)
        ∧ rB.station_name = r.station_name
        ∧ rB.distance_km = r.distance_km
        ∧ rB.geojson = r.geojson
        ∧ rB.walking_directions = none := by
  refine ⟨fun a b e f => getWalkingDirections_of_fails (hfail a b e f), ?_⟩
  unfold findNearestStation at h1 ⊢
  by_cases hval : (loc.latitude = none ∨ loc.longitude = none) ∧ loc.address = none
  · rw [if_pos hval] at h1
    simp at h1
  · rw [if_neg hval] at h1 ⊢
    have hres : resolveCoords ⟨geocode, geodesic, hav, pi, osrmB, serialize⟩ loc
        = resolveCoords ⟨geocode, geodesic, hav, pi, osrmA, serialize⟩ loc := rfl
    rw [hres]
    cases hco : resolveCoords ⟨geocode, geodesic, hav, pi, osrmA, serialize⟩ loc with
    | none =>
      rw [hco] at h1
      simp at h1
    | some q =>
      obtain ⟨lat, lon⟩ := q
      rw [hco] at h1
      obtain ⟨pts, idx, dist, rows, row, gx, gy, harea, hmiss, ht, hq, hd, hrow, hgeom,
        hr, hc⟩ := findNearestResolved_fresh_inv h1
      refine ⟨mkResp ⟨geocode, geodesic, hav, pi, osrmB, serialize⟩ lat lon idx dist row gx gy,
        _, findNearestResolved_eval harea hmiss ht hq hd hrow hgeom, ?_, ?_, ?_, ?_⟩
      · rw [hr]; rfl
      · rw [hr]; rfl
      · rw [hr]; rfl
      · exact getWalkingDirections_of_fails (hfail lat lon gy gx)

/-- Claim C7 witness: concretely, with a routing service answering a
non-success code, the request still succeeds with directions absent. -/
theorem C7_directions_failure_nonfatal_witness :
    (∀ a b e f, getWalkingDirections
        ((fun (_ _ _ _ : ℚ) => OSRMResponse.ok "Error" []) a b e f) = none)
    ∧ ∃ rB cB, findNearestStation
          ⟨fun (_ : String) => none, fun (_ _ : ℚ × ℚ) => 0, sqDist, piF,
           fun (_ _ _ _ : ℚ) => OSRMResponse.ok "Error" [], fun (_ : StationResponse) => "S"⟩
          loadedState []
          { address := none, latitude := some 39.9526, longitude := some (-75.1652) }
        = (.fresh rB, cB)
      ∧ rB.station_name = freshRespAtCenter.station_name
      ∧ rB.distance_km = freshRespAtCenter.distance_km
      ∧ rB.geojson = freshRespAtCenter.geojson
      ∧ rB.walking_directions = none :=
  C7_directions_failure_nonfatal (fun (_ : String) => none) (fun (_ _ : ℚ × ℚ) => 0)
    sqDist piF
    (fun (_ _ _ _ : ℚ) => OSRMResponse.failure)
    (fun (_ _ _ _ : ℚ) => OSRMResponse.ok "Error" [])
    (fun (_ : StationResponse) => "S") loadedState []
    { address := none, latitude := some 39.9526, longitude := some (-75.1652) }
    freshRespAtCenter (cacheSet [] (cacheKey 39.9526 (-75.1652)) "S")
    (fun (a b e f : ℚ) => Or.inr ⟨"Error", [], rfl, Or.inl (by decide)⟩)
    (by
      simp [findNearestStation, resolveCoords, findNearestResolved, loadedState,
        loadSeptaData, initialState, npRadians, npDegrees, suburbanRow, piF,
        StationRow.geomD, StationRow.geometry, List.find?, cacheGet, cacheSet, treeQuery,
        sqDist, stationToGeojson, stationName, StationRow.getStr, getWalkingDirections,
        MAX_SERVICE_RADIUS_KM, SEPTA_CENTER_LAT, SEPTA_CENTER_LON,
        freshRespAtCenter, round2, pyRoundInt]
      norm_num [Int.fract])

/-- Step lists normalised by `normStep` are pointwise related to the
original steps, in order. -/
theorem forall2_normStep (l : List OSRMStep) :
    List.Forall₂ (fun (d : DirStep) (s : OSRMStep) =>
      d.instruction = (if s.name = "" then "continue" else s.name)
      ∧ d.distance_meters = s.distance) (l.map normStep) l := by
  induction l with
  | nil => exact List.Forall₂.nil
  | cons a t ih => exact List.Forall₂.cons ⟨rfl, rfl⟩ ih

/-- Claim C8: a successful routing response is normalised to total
distance `round2(meters/1000)` km, total duration `round1(seconds/60)`
minutes, and the steps of all legs in order, each carrying its distance
in meters and its road name with the empty name replaced by
`"continue"`. -/
theorem C8_directions_normalization (route : OSRMRoute) (rest : List OSRMRoute) :
    ∃ wd, getWalkingDirections (.ok "Ok" (route :: rest)) = some wd
      ∧ wd.distance = round2 (route.distance / 1000)
      ∧ wd.duration = round1 (route.duration / 60)
      ∧ List.Forall₂ (fun (d : DirStep) (s : OSRMStep) =>
            d.instruction = (if s.name = "" then "continue" else s.name)
            ∧ d.distance_meters = s.distance)
          wd.steps (route.legs.flatMap (fun l => l.steps)) := by
  refine ⟨{ distance := round2 (route.distance / 1000)
            duration := round1 (route.duration / 60)
            steps := (route.legs.flatMap (fun l => l.steps)).map normStep },
    by simp [getWalkingDirections], rfl, rfl, forall2_normStep _⟩

/-- `find?` by a non-geometry key commutes with dropping the geometry
column. -/
theorem find_filter_ne {cols : List (String × ColVal)} {k : String}
    (hk : ¬ k = "geometry") :
    (cols.filter (fun c => ¬ c.1 = "geometry")).find? (fun c => c.1 = k)
      = cols.find? (fun c => c.1 = k) := by
  induction cols with
  | nil => rfl
  | cons a t ih =>
    rw [List.filter_cons]
    by_cases hg : a.1 = "geometry"
    · have hak : ¬ a.1 = k := fun hkk => hk (hkk.symm.trans hg)
      rw [if_neg (by simp [hg]), List.find?_cons_of_neg _ (by simp [hak]), ih]
    · rw [if_pos (by simp [hg])]
      by_cases hak : a.1 = k
      · rw [List.find?_cons_of_pos _ (by simp [hak]),
          List.find?_cons_of_pos _ (by simp [hak])]
      · rw [List.find?_cons_of_neg _ (by simp [hak]),
          List.find?_cons_of_neg _ (by simp [hak]), ih]

/-- No geometry key survives the property filter. -/
theorem find_filter_geometry (cols : List (String × ColVal)) :
    (cols.filter (fun c => ¬ c.1 = "geometry")).find? (fun c => c.1 = "geometry")
      = none := by
  induction cols with
  | nil => rfl
  | cons a t ih =>
    rw [List.filter_cons]
    by_cases hg : a.1 = "geometry"
    · rw [if_neg (by simp [hg]), ih]
    · rw [if_pos (by simp [hg]), List.find?_cons_of_neg _ (by simp [hg]), ih]

/-- Claim C9: converting a station row to its GeoJSON feature and reading
the feature back reproduces the station's coordinates in (lon, lat) order
and a property mapping equal to the row's columns minus the geometry
field (same lookup result on every non-geometry key, and no geometry
key). -/
theorem C9_geojson_roundtrip (r : StationRow) (x y : ℚ)
    (h : r.geometry = some (x, y)) :
    ∃ f, stationToGeojson r = some f
      ∧ f.ftype = "Feature" ∧ f.gtype = "Point"
      ∧ f.coordinates = [x, y]
      ∧ (∀ k, ¬ k = "geometry" →
          f.properties.find? (fun c => c.1 = k) = r.cols.find? (fun c => c.1 = k))
      ∧ f.properties.find? (fun c => c.1 = "geometry") = none := by
  refine ⟨mkFeature r x y, stationToGeojson_eq h, rfl, rfl, rfl, ?_, ?_⟩
  · intro k hk
    exact find_filter_ne hk
  · exact find_filter_geometry _

/-- Claim C9 witness at the concrete station row. -/
theorem C9_geojson_roundtrip_witness :
    ∃ f, stationToGeojson suburbanRow = some f
      ∧ f.ftype = "Feature" ∧ f.gtype = "Point"
      ∧ f.coordinates = [-75.1652, 39.9526]
      ∧ (∀ k, ¬ k = "geometry" →
          f.properties.find? (fun c => c.1 = k)
            = suburbanRow.cols.find? (fun c => c.1 = k))
      ∧ f.properties.find? (fun c => c.1 = "geometry") = none :=
  C9_geojson_roundtrip suburbanRow (-75.1652) 39.9526
    (by simp [StationRow.geometry, suburbanRow, List.find?])

/-- Claim C10: a non-empty address that geocodes successfully makes the
whole request behave exactly as if only the geocoded coordinates had been
supplied — the supplied coordinates are irrelevant — while an empty
address string is falsy in Python and leaves the supplied coordinates in
charge. -/
theorem C10_geocoded_address_overrides_coords (env : Env) (s : SeptaState)
    (cache : Cache) (a : String) (glat glon lat₀ lon₀ lat₁ lon₁ : ℚ)
    (ha : ¬ a = "") (hg : env.geocode a = some (glat, glon)) :
    findNearestStation env s cache
        { address := some a, latitude := some lat₀, longitude := some lon₀ }
      = findNearestStation env s cache
        { address := none, latitude := some glat, longitude := some glon }
    ∧ findNearestStation env s cache
        { address := some a, latitude := some lat₀, longitude := some lon₀ }
      = findNearestStation env s cache
        { address := some a, latitude := some lat₁, longitude := some lon₁ }
    ∧ findNearestStation env s cache
        { address := some "", latitude := some lat₀, longitude := some lon₀ }
      = findNearestStation env s cache
        { address := none, latitude := some lat₀, longitude := some lon₀ } := by
  unfold findNearestStation
  simp [resolveCoords, hg, ha]

/-- Claim C10 witness: concretely, a geocoded address makes the supplied
coordinates irrelevant, and the empty address falls back to them. -/
theorem C10_geocoded_address_overrides_coords_witness :
    findNearestStation envGeoToCenter loadedState []
        { address := some "City Hall", latitude := some 0, longitude := some 0 }
      = findNearestStation envGeoToCenter loadedState []
        { address := none, latitude := some 39.9526, longitude := some (-75.1652) }
    ∧ findNearestStation envGeoToCenter loadedState []
        { address := some "City Hall", latitude := some 0, longitude := some 0 }
      = findNearestStation envGeoToCenter loadedState []
        { address := some "City Hall", latitude := some 12, longitude := some 34 }
    ∧ findNearestStation envGeoToCenter loadedState []
        { address := some "", latitude := some 0, longitude := some 0 }
      = findNearestStation envGeoToCenter loadedState []
        { address := none, latitude := some 0, longitude := some 0 } :=
  C10_geocoded_address_overrides_coords envGeoToCenter loadedState [] "City Hall"
    39.9526 (-75.1652) 0 0 12 34 (by simp) rfl

end Septa
